import Mathlib

/-!
# go-commons-aws-s3: the storage client wrapper

A shallow embedding of `s3.go`.  The repository is a thin wrapper over the AWS SDK
for Go (v2): every method builds one request value and hands it to one SDK
operation.  The SDK and the remote service are outside the repository, so they
appear here as an environment: an SDK operation is an effect (`Op`) whose answer
is chosen by an arbitrary handler (`SDK`), and the wrapper's functions are programs
(`Prog`) over these effects.  Running a program records every SDK operation it
invokes, in order.

Go strings are byte sequences; a nil-able pointer is an `Option`.
-/

/-! ## Go strings -/

/-- One byte. -/
abbrev Byte := Fin 256

/-- A Go `string`: an immutable sequence of bytes. -/
abbrev GoString := List Byte

/-- The byte of an ASCII character literal. -/
def byte (c : Char) : Byte := ⟨c.toNat % 256, Nat.mod_lt _ (by decide)⟩

/-- The bytes of an ASCII string literal. -/
def ascii (s : String) : GoString := s.toList.map byte

/-! ## `net/url` (Go standard library): `PathEscape`

The wrapper calls `url.PathEscape`; the definitions below follow the standard
library's `shouldEscape` and `escape`. -/

namespace url

/-- The `encoding` modes of `net/url`. -/
inductive encoding where
  | encodePath
  | encodePathSegment
  | encodeHost
  | encodeZone
  | encodeUserPassword
  | encodeQueryComponent
  | encodeFragment
  deriving DecidableEq, Repr

open encoding

/-- ASCII letters and digits: `'a' <= c && c <= 'z' || 'A' <= c && c <= 'Z' || '0' <= c && c <= '9'`. -/
def isAlnum (c : Byte) : Bool :=
  (97 ≤ c.val && c.val ≤ 122) || (65 ≤ c.val && c.val ≤ 90) || (48 ≤ c.val && c.val ≤ 57)

/-- The sub-delimiters and brackets that the host modes leave alone:
`! $ & ' ( ) * + , ; = : [ ] < > "`. -/
def hostAllowed : List Byte := [33, 36, 38, 39, 40, 41, 42, 43, 44, 59, 61, 58, 91, 93, 60, 62, 34]

/-- The unreserved marks `- _ . ~`. -/
def unreservedMarks : List Byte := [45, 95, 46, 126]

/-- The reserved characters `$ & + , / : ; = ? @`. -/
def reservedChars : List Byte := [36, 38, 43, 44, 47, 58, 59, 61, 63, 64]

/-- Go's `shouldEscape(c, mode)`: whether byte `c` must be percent-encoded when it
appears in the part of a URL named by `mode`. -/
def shouldEscape (c : Byte) (mode : encoding) : Bool :=
  if isAlnum c then false
  else if (mode = encodeHost ∨ mode = encodeZone) ∧ c ∈ hostAllowed then false
  else if c ∈ unreservedMarks then false
  else
    let fallThrough : Bool :=
      if mode = encodeFragment ∧ c ∈ ([33, 40, 41, 42] : List Byte) then false else true
    if c ∈ reservedChars then
      match mode with
      | encodePath => c = 63
      | encodePathSegment => c = 47 ∨ c = 59 ∨ c = 44 ∨ c = 63
      | encodeUserPassword => c = 64 ∨ c = 47 ∨ c = 63 ∨ c = 58
      | encodeQueryComponent => true
      | encodeFragment => false
      | encodeHost => fallThrough
      | encodeZone => fallThrough
    else fallThrough

/-- The table `upperhex = "0123456789ABCDEF"`, indexed by a nibble. -/
def upperhex (n : Nat) : Byte :=
  if n < 10 then ⟨(48 + n) % 256, Nat.mod_lt _ (by decide)⟩
  else ⟨(55 + n) % 256, Nat.mod_lt _ (by decide)⟩

/-- First loop of `escape`: the number of spaces that become `+`. -/
def spaceCount (s : GoString) (mode : encoding) : Nat :=
  s.countP (fun c => shouldEscape c mode && (decide (c = 32) && decide (mode = encodeQueryComponent)))

/-- First loop of `escape`: the number of bytes that become `%XX`. -/
def hexCount (s : GoString) (mode : encoding) : Nat :=
  s.countP (fun c => shouldEscape c mode && !(decide (c = 32) && decide (mode = encodeQueryComponent)))

/-- The `copy` branch of `escape` (no byte needs `%XX`): every space becomes `+`. -/
def plusForSpace : GoString → GoString
  | [] => []
  | c :: s => (if c = 32 then (43 : Byte) else c) :: plusForSpace s

/-- The last loop of `escape`: writes each byte, or `+`, or `%` and two hex digits. -/
def escapeLoop (mode : encoding) : GoString → GoString
  | [] => []
  | c :: s =>
    if c = 32 ∧ mode = encodeQueryComponent then (43 : Byte) :: escapeLoop mode s
    else if shouldEscape c mode then
      (37 : Byte) :: upperhex (c.val / 16) :: upperhex (c.val % 16) :: escapeLoop mode s
    else c :: escapeLoop mode s

/-- Go's `escape(s, mode)`. -/
def escape (s : GoString) (mode : encoding) : GoString :=
  if spaceCount s mode = 0 ∧ hexCount s mode = 0 then s
  else if hexCount s mode = 0 then plusForSpace s
  else escapeLoop mode s

/-- Go's `url.PathEscape(s)`: `escape(s, encodePathSegment)`. -/
def PathEscape (s : GoString) : GoString := escape s encodePathSegment

end url

/-! ## Values of the Go runtime and of the SDK -/

/-- A Go `error` value, identified by its text. -/
structure GoError where
  text : GoString
  deriving DecidableEq, Repr

/-- Go's `errors.New(text)`. -/
def errors.New (text : GoString) : GoError := ⟨text⟩

/-- An `io.Reader`, identified by the bytes it will yield. -/
structure Reader where
  data : GoString
  deriving DecidableEq, Repr

/-- The SDK's `aws.String(v)`: a pointer to a copy of `v` (never nil). -/
def aws.String (v : GoString) : Option GoString := some v

/-- The value held by a field of an SDK struct that this file does not name. -/
inductive FieldValue where
  | str (s : GoString)
  | int (n : Int)
  | bool (b : Bool)
  deriving DecidableEq, Repr

/-- The fields of an SDK request struct that the repository never names, by field
name.  A field that does not occur holds its zero value; a composite literal that
does not mention a field leaves it out of this list. -/
abbrev OtherFields := List (String × FieldValue)

/-- The SDK's `credentials.StaticCredentialsProvider`. -/
structure credentials.StaticCredentialsProvider where
  AccessKeyID : GoString
  SecretAccessKey : GoString
  SessionToken : GoString
  deriving DecidableEq, Repr

/-- The SDK's `credentials.NewStaticCredentialsProvider(key, secret, session)`. -/
def credentials.NewStaticCredentialsProvider (key secret session : GoString) :
    credentials.StaticCredentialsProvider :=
  { AccessKeyID := key, SecretAccessKey := secret, SessionToken := session }

/-- An option function handed to `config.LoadDefaultConfig`. -/
inductive config.LoadOption where
  | WithRegion (v : GoString)
  | WithCredentialsProvider (v : credentials.StaticCredentialsProvider)
  deriving DecidableEq, Repr

/-- The SDK's `aws.Config` (a struct value, not a pointer). -/
structure aws.Config where
  Region : GoString
  Credentials : Option credentials.StaticCredentialsProvider
  deriving DecidableEq, Repr

/-- The SDK's `s3.Client`, the service handle. -/
structure s3.Client where
  options : aws.Config
  deriving DecidableEq, Repr

/-- The SDK's `s3.NewFromConfig(cfg)`: allocates a client, so the pointer it
returns is never nil. -/
def s3.NewFromConfig (cfg : aws.Config) : Option s3.Client := some { options := cfg }

/-- The SDK's `s3.CreateBucketInput`. -/
structure s3.CreateBucketInput where
  Bucket : Option GoString := none
  others : OtherFields := []
  deriving DecidableEq, Repr

/-- The SDK's `s3.DeleteBucketInput`. -/
structure s3.DeleteBucketInput where
  Bucket : Option GoString := none
  others : OtherFields := []
  deriving DecidableEq, Repr

/-- The SDK's `s3.PutObjectInput`. -/
structure s3.PutObjectInput where
  Bucket : Option GoString := none
  Key : Option GoString := none
  Body : Option Reader := none
  ContentType : Option GoString := none
  CacheControl : Option GoString := none
  others : OtherFields := []
  deriving DecidableEq, Repr

/-- The SDK's `s3.DeleteObjectInput`. -/
structure s3.DeleteObjectInput where
  Bucket : Option GoString := none
  Key : Option GoString := none
  others : OtherFields := []
  deriving DecidableEq, Repr

/-- The SDK's `s3.CopyObjectInput`.  In the service's semantics `Bucket` names the
destination bucket, `Key` the destination key and `CopySource` the source object. -/
structure s3.CopyObjectInput where
  Bucket : Option GoString := none
  CopySource : Option GoString := none
  Key : Option GoString := none
  others : OtherFields := []
  deriving DecidableEq, Repr

/-- The SDK's `s3.GetObjectInput`. -/
structure s3.GetObjectInput where
  Bucket : Option GoString := none
  Key : Option GoString := none
  others : OtherFields := []
  deriving DecidableEq, Repr

/-- The SDK's `s3.ListBucketsInput`. -/
structure s3.ListBucketsInput where
  others : OtherFields := []
  deriving DecidableEq, Repr

/-- The SDK's `s3.ListObjectsInput`. -/
structure s3.ListObjectsInput where
  Bucket : Option GoString := none
  others : OtherFields := []
  deriving DecidableEq, Repr

/-- The SDK's `s3.CreateBucketOutput`. -/
structure s3.CreateBucketOutput where
  Location : Option GoString
  deriving DecidableEq, Repr

/-- The SDK's `s3.DeleteBucketOutput`. -/
structure s3.DeleteBucketOutput where
  RequestID : GoString
  deriving DecidableEq, Repr

/-- The SDK's `manager.UploadOutput`. -/
structure manager.UploadOutput where
  Location : GoString
  Key : Option GoString
  ETag : Option GoString
  deriving DecidableEq, Repr

/-- The SDK's `s3.DeleteObjectOutput`. -/
structure s3.DeleteObjectOutput where
  DeleteMarker : Option Bool
  deriving DecidableEq, Repr

/-- The SDK's `s3.CopyObjectOutput`. -/
structure s3.CopyObjectOutput where
  ETag : Option GoString
  deriving DecidableEq, Repr

/-- The SDK's `v4.PresignedHTTPRequest`. -/
structure v4.PresignedHTTPRequest where
  URL : GoString
  Method : GoString
  deriving DecidableEq, Repr

/-- The SDK's `s3.ListBucketsOutput`, as the names of the listed buckets. -/
structure s3.ListBucketsOutput where
  Buckets : List (Option GoString)
  deriving DecidableEq, Repr

/-- The SDK's `s3.ListObjectsOutput`, as the keys of the listed objects. -/
structure s3.ListObjectsOutput where
  Contents : List (Option GoString)
  deriving DecidableEq, Repr

/-- The SDK's `manager.Uploader`, made by `manager.NewUploader(client)`. -/
structure manager.Uploader where
  S3 : s3.Client
  deriving DecidableEq, Repr

/-- The SDK's `s3.PresignClient`, made by `s3.NewPresignClient(client)`. -/
structure s3.PresignClient where
  client : s3.Client
  deriving DecidableEq, Repr

/-! ## SDK operations as effects -/

/-- One invocation of an SDK operation: the receiver (or the option list) and the
request it is given.  The `context.TODO()` argument carries no data. -/
inductive Op where
  | LoadDefaultConfig (optFns : List config.LoadOption)
  | CreateBucket (c : s3.Client) (params : s3.CreateBucketInput)
  | DeleteBucket (c : s3.Client) (params : s3.DeleteBucketInput)
  | Upload (u : manager.Uploader) (input : s3.PutObjectInput)
  | DeleteObject (c : s3.Client) (params : s3.DeleteObjectInput)
  | CopyObject (c : s3.Client) (params : s3.CopyObjectInput)
  | PresignGetObject (c : s3.PresignClient) (params : s3.GetObjectInput)
  | ListBuckets (c : s3.Client) (params : s3.ListBucketsInput)
  | ListObjects (c : s3.Client) (params : s3.ListObjectsInput)
  deriving DecidableEq, Repr

/-- What an SDK operation hands back: Go's `(result, error)` pair. -/
@[reducible] def Op.Resp : Op → Type
  | .LoadDefaultConfig _ => aws.Config × Option GoError
  | .CreateBucket _ _ => Option s3.CreateBucketOutput × Option GoError
  | .DeleteBucket _ _ => Option s3.DeleteBucketOutput × Option GoError
  | .Upload _ _ => Option manager.UploadOutput × Option GoError
  | .DeleteObject _ _ => Option s3.DeleteObjectOutput × Option GoError
  | .CopyObject _ _ => Option s3.CopyObjectOutput × Option GoError
  | .PresignGetObject _ _ => Option v4.PresignedHTTPRequest × Option GoError
  | .ListBuckets _ _ => Option s3.ListBucketsOutput × Option GoError
  | .ListObjects _ _ => Option s3.ListObjectsOutput × Option GoError

/-- A Go function body over the SDK: it returns, or invokes an SDK operation and
goes on with the answer, or stops in a run-time panic. -/
inductive Prog (α : Type) where
  | ret (a : α)
  | call (o : Op) (k : o.Resp → Prog α)
  | panic

/-- Sequencing of function bodies. -/
def Prog.bind {α β : Type} : Prog α → (α → Prog β) → Prog β
  | .ret a, f => f a
  | .call o k, f => .call o (fun r => (k r).bind f)
  | .panic, _ => .panic

instance : Monad Prog where
  pure := Prog.ret
  bind := Prog.bind

/-- Invoke one SDK operation and return its answer. -/
def Prog.invoke (o : Op) : Prog o.Resp := .call o .ret

/-- A behaviour of the SDK and of the service behind it: given its own state
(environment, files, the remote store), the answer to each operation and the state
afterwards. -/
structure SDK (σ : Type) where
  handle : (o : Op) → σ → o.Resp × σ

/-- How a function body ends. -/
inductive Outcome (α : Type) where
  | returned (a : α)
  | panicked
  deriving DecidableEq, Repr

/-- The result of running a function body: how it ended, the SDK's state, and the
SDK operations invoked so far, oldest first. -/
structure Run (σ α : Type) where
  outcome : Outcome α
  state : σ
  calls : List Op

/-- Run a function body against an SDK behaviour from state `st`, appending each
invoked operation to `log`. -/
def Prog.run {σ α : Type} (sdk : SDK σ) : Prog α → σ → List Op → Run σ α
  | .ret a, st, log => { outcome := .returned a, state := st, calls := log }
  | .call o k, st, log => (k (sdk.handle o st).1).run sdk (sdk.handle o st).2 (log ++ [o])
  | .panic, st, log => { outcome := .panicked, state := st, calls := log }

/-! ## The SDK's methods, as seen from the repository -/

/-- Calling `c.CreateBucket(ctx, params)`; a nil client is dereferenced by the SDK. -/
def s3.Client.CreateBucket (c : Option s3.Client) (params : s3.CreateBucketInput) :
    Prog (Option s3.CreateBucketOutput × Option GoError) :=
  match c with
  | none => .panic
  | some c => Prog.invoke (.CreateBucket c params)

/-- Calling `c.DeleteBucket(ctx, params)`. -/
def s3.Client.DeleteBucket (c : Option s3.Client) (params : s3.DeleteBucketInput) :
    Prog (Option s3.DeleteBucketOutput × Option GoError) :=
  match c with
  | none => .panic
  | some c => Prog.invoke (.DeleteBucket c params)

/-- Calling `c.DeleteObject(ctx, params)`. -/
def s3.Client.DeleteObject (c : Option s3.Client) (params : s3.DeleteObjectInput) :
    Prog (Option s3.DeleteObjectOutput × Option GoError) :=
  match c with
  | none => .panic
  | some c => Prog.invoke (.DeleteObject c params)

/-- Calling `c.CopyObject(ctx, params)`. -/
def s3.Client.CopyObject (c : Option s3.Client) (params : s3.CopyObjectInput) :
    Prog (Option s3.CopyObjectOutput × Option GoError) :=
  match c with
  | none => .panic
  | some c => Prog.invoke (.CopyObject c params)

/-- Calling `c.ListBuckets(ctx, params)`. -/
def s3.Client.ListBuckets (c : Option s3.Client) (params : s3.ListBucketsInput) :
    Prog (Option s3.ListBucketsOutput × Option GoError) :=
  match c with
  | none => .panic
  | some c => Prog.invoke (.ListBuckets c params)

/-- Calling `c.ListObjects(ctx, params)`. -/
def s3.Client.ListObjects (c : Option s3.Client) (params : s3.ListObjectsInput) :
    Prog (Option s3.ListObjectsOutput × Option GoError) :=
  match c with
  | none => .panic
  | some c => Prog.invoke (.ListObjects c params)

/-- The SDK's `manager.NewUploader(client)`. -/
def manager.NewUploader (client : Option s3.Client) : Option manager.Uploader :=
  client.map fun c => { S3 := c }

/-- Calling `uploader.Upload(ctx, input)`.  Without a client behind it the call
panics.  The helper reads `input.Body` before it sends anything, so a nil reader is
dereferenced there and the call panics as well; otherwise the helper runs and
answers with its pair. -/
def manager.Uploader.Upload (u : Option manager.Uploader) (input : s3.PutObjectInput) :
    Prog (Option manager.UploadOutput × Option GoError) :=
  match u with
  | none => .panic
  | some u =>
    match input.Body with
    | none => .panic
    | some _ => Prog.invoke (.Upload u input)

/-- The SDK's `s3.NewPresignClient(client)`. -/
def s3.NewPresignClient (c : Option s3.Client) : Option s3.PresignClient :=
  c.map fun c => { client := c }

/-- Calling `p.PresignGetObject(ctx, params)`; without a client behind it the call panics. -/
def s3.PresignClient.PresignGetObject (p : Option s3.PresignClient) (params : s3.GetObjectInput) :
    Prog (Option v4.PresignedHTTPRequest × Option GoError) :=
  match p with
  | none => .panic
  | some p => Prog.invoke (.PresignGetObject p params)

/-- Calling `config.LoadDefaultConfig(ctx, optFns...)`. -/
def config.LoadDefaultConfig (optFns : List config.LoadOption) :
    Prog (aws.Config × Option GoError) :=
  Prog.invoke (.LoadDefaultConfig optFns)

/-! ## The repository: `s3.go` -/

/-- The wrapper's `Client`: one field, the pointer to the SDK client. -/
structure Client where
  s3 : Option s3.Client
  deriving DecidableEq, Repr

namespace Client

/-- `func (ctx *Client) CreateBucket(bucket string)`. -/
def CreateBucket (ctx : Client) (bucket : GoString) :
    Prog (Option s3.CreateBucketOutput × Option GoError) :=
  let input : s3.CreateBucketInput := { Bucket := aws.String bucket }
  s3.Client.CreateBucket ctx.s3 input

/-- `func (ctx *Client) DeleteBucket(bucket string)`. -/
def DeleteBucket (ctx : Client) (bucket : GoString) :
    Prog (Option s3.DeleteBucketOutput × Option GoError) :=
  let input : s3.DeleteBucketInput := { Bucket := aws.String bucket }
  s3.Client.DeleteBucket ctx.s3 input

/-- `func (ctx *Client) UploadObject(bucket, key string, body io.Reader, contentType, cacheControl string)`. -/
def UploadObject (ctx : Client) (bucket key : GoString) (body : Option Reader)
    (contentType cacheControl : GoString) :
    Prog (Option manager.UploadOutput × Option GoError) :=
  let uploader := manager.NewUploader ctx.s3
  manager.Uploader.Upload uploader
    { Bucket := aws.String bucket
      Key := aws.String key
      Body := body
      ContentType := aws.String contentType
      CacheControl := aws.String cacheControl }

/-- `func (ctx *Client) DeleteObject(bucket, key string)`. -/
def DeleteObject (ctx : Client) (bucket key : GoString) :
    Prog (Option s3.DeleteObjectOutput × Option GoError) :=
  let input : s3.DeleteObjectInput := { Bucket := aws.String bucket, Key := aws.String key }
  s3.Client.DeleteObject ctx.s3 input

/-- `func (ctx *Client) CopyObject(sourceBucket, key, destinationBucket string)`. -/
def CopyObject (ctx : Client) (sourceBucket key destinationBucket : GoString) :
    Prog (Option s3.CopyObjectOutput × Option GoError) :=
  let input : s3.CopyObjectInput :=
    { Bucket := aws.String (url.PathEscape sourceBucket)
      CopySource := aws.String destinationBucket
      Key := aws.String key }
  s3.Client.CopyObject ctx.s3 input

/-- `func (ctx *Client) GetObjectSign(bucket, key string)`. -/
def GetObjectSign (ctx : Client) (bucket key : GoString) :
    Prog (Option v4.PresignedHTTPRequest × Option GoError) :=
  let preSignClient := s3.NewPresignClient ctx.s3
  s3.PresignClient.PresignGetObject preSignClient
    { Bucket := aws.String bucket, Key := aws.String key }

/-- `func (ctx *Client) ListBuckets()`. -/
def ListBuckets (ctx : Client) : Prog (Option s3.ListBucketsOutput × Option GoError) :=
  let input : s3.ListBucketsInput := {}
  s3.Client.ListBuckets ctx.s3 input

/-- `func (ctx *Client) ListObjects(bucket string)`. -/
def ListObjects (ctx : Client) (bucket : GoString) :
    Prog (Option s3.ListObjectsOutput × Option GoError) :=
  let input : s3.ListObjectsInput := { Bucket := aws.String bucket }
  s3.Client.ListObjects ctx.s3 input

/-- `func (ctx *Client) GetS3() *s3.Client`. -/
def GetS3 (ctx : Client) : Option s3.Client := ctx.s3

end Client

/-- `func NewClient(region, key, secret, session string) (*Client, error)`. -/
def NewClient (region key secret session : GoString) : Prog (Option Client × Option GoError) :=
  if region = [] then
    pure (none, some (errors.New (ascii "region cannot be empty")))
  else if key = [] then
    pure (none, some (errors.New (ascii "key cannot be empty")))
  else if secret = [] then
    pure (none, some (errors.New (ascii "secret cannot be empty")))
  else do
    let (cfg, err) ← config.LoadDefaultConfig
      [ config.LoadOption.WithRegion region,
        config.LoadOption.WithCredentialsProvider
          (credentials.NewStaticCredentialsProvider key secret session) ]
    if err ≠ none then
      return (none, err)
    return (some { s3 := s3.NewFromConfig cfg }, none)

/-! ## Vocabulary for the statements -/

/-- The SDK operations a function body invokes, in order, when run against `sdk`
from state `st`. -/
def Prog.calls {σ α : Type} (p : Prog α) (sdk : SDK σ) (st : σ) : List Op :=
  (p.run sdk st []).calls

/-- The function body `p` forwards to the SDK operation `o`: against every SDK
behaviour and from every state, `p` invokes `o` once and nothing else, and returns
exactly the pair `o` answered, leaving the SDK in the state `o` left it in. -/
def Forwards (o : Op) (p : Prog o.Resp) : Prop :=
  ∀ (σ : Type) (sdk : SDK σ) (st : σ),
    p.run sdk st [] =
      { outcome := .returned (sdk.handle o st).1, state := (sdk.handle o st).2, calls := [o] }

/-- The option list `NewClient` hands to the configuration loader. -/
abbrev loadCall (region key secret session : GoString) : Op :=
  .LoadDefaultConfig
    [ config.LoadOption.WithRegion region,
      config.LoadOption.WithCredentialsProvider
        (credentials.NewStaticCredentialsProvider key secret session) ]

/-- The characters of the claim on bucket names: ASCII letters, digits, `-`, `.`
and `_`. -/
def isBucketChar (c : Byte) : Bool :=
  url.isAlnum c || c == 45 || c == 46 || c == 95

/-- An SDK behaviour for examples: the loader builds the configuration it is asked
for, the upload helper reports the request's key, the presigner returns a request
for `GET`, and every other operation answers with an empty result; none fails.
The state counts the operations handled. -/
def SDK.stub : SDK Nat where
  handle o n :=
    match o with
    | .LoadDefaultConfig optFns =>
      (({ Region := optFns.foldl (fun r f => match f with | .WithRegion v => v | _ => r) [],
          Credentials := optFns.foldl
            (fun r f => match f with | .WithCredentialsProvider v => some v | _ => r) none },
        none), n + 1)
    | .CreateBucket _ _ => ((some { Location := none }, none), n + 1)
    | .DeleteBucket _ _ => ((some { RequestID := [] }, none), n + 1)
    | .Upload _ input =>
      ((some { Location := [], Key := input.Key, ETag := none }, none), n + 1)
    | .DeleteObject _ _ => ((some { DeleteMarker := none }, none), n + 1)
    | .CopyObject _ _ => ((some { ETag := none }, none), n + 1)
    | .PresignGetObject _ _ => ((some { URL := [], Method := ascii "GET" }, none), n + 1)
    | .ListBuckets _ _ => ((some { Buckets := [] }, none), n + 1)
    | .ListObjects _ _ => ((some { Contents := [] }, none), n + 1)

/-- An SDK behaviour in which every operation fails with the error `e`. -/
def SDK.failing (e : GoError) : SDK Unit where
  handle o st :=
    match o with
    | .LoadDefaultConfig _ => (({ Region := [], Credentials := none }, some e), st)
    | .CreateBucket _ _ => ((none, some e), st)
    | .DeleteBucket _ _ => ((none, some e), st)
    | .Upload _ _ => ((none, some e), st)
    | .DeleteObject _ _ => ((none, some e), st)
    | .CopyObject _ _ => ((none, some e), st)
    | .PresignGetObject _ _ => ((none, some e), st)
    | .ListBuckets _ _ => ((none, some e), st)
    | .ListObjects _ _ => ((none, some e), st)

/-- A service handle for examples. -/
def exampleHandle : s3.Client :=
  { options := { Region := ascii "us-east-2", Credentials := none } }

/-! ## The remote store of the specification

The repository holds no code of the remote service.  What follows is the store the
specification describes in words, as one SDK behaviour among all those the
statements above range over. -/

/-- Modelled from the spec: an object held by the remote service, which is not part
of the repository: "a named binary blob stored within a bucket, addressed by a
string key". -/
structure StoredObject where
  bucket : GoString
  key : GoString
  data : GoString
  deriving DecidableEq, Repr

/-- Modelled from the spec: the state of the remote object-storage service, which
is not part of the repository: the buckets ("top-level namespace/container") and
the objects stored within them. -/
structure Store where
  buckets : List GoString
  objects : List StoredObject
  deriving DecidableEq, Repr

namespace Store

/-- Modelled from the spec: the service error "not-found". -/
def notFound : GoError := errors.New (ascii "not-found")

/-- Modelled from the spec: the service error "conflict" (a duplicate bucket name,
a bucket that is not empty). -/
def conflict : GoError := errors.New (ascii "conflict")

/-- Modelled from the spec: the service's answer to a request that lacks a name. -/
def invalid : GoError := errors.New (ascii "invalid request")

/-- Modelled from the spec: the answer to the two operations whose effect the spec
leaves to the service without describing it. -/
def undescribed : GoError := errors.New (ascii "not described")

/-- Modelled from the spec: storing an object under `(bucket, key)`; an object
already stored under that name is replaced. -/
def put (st : Store) (bucket key data : GoString) : Store :=
  { st with
    objects := { bucket := bucket, key := key, data := data } ::
      st.objects.filter (fun o => !decide (o.bucket = bucket ∧ o.key = key)) }

/-- Modelled from the spec: deleting the object stored under `(bucket, key)`, if
there is one ("not an error if key absent"). -/
def remove (st : Store) (bucket key : GoString) : Store :=
  { st with objects := st.objects.filter (fun o => !decide (o.bucket = bucket ∧ o.key = key)) }

/-- Modelled from the spec: the keys a listing of `bucket` shows, one entry for each
object stored in the bucket (the single page of the listing is taken to hold them
all). -/
def keys (st : Store) (bucket : GoString) : List (Option GoString) :=
  (st.objects.filter (fun o => decide (o.bucket = bucket))).map (fun o => some o.key)

end Store

/-- Modelled from the spec: the SDK and the remote service as the specification
describes them, over a `Store`; the service itself is not part of the repository.
Creating a bucket fails on a duplicate name; deleting a bucket fails if it does not
exist or is not empty; an upload stores the body under `(bucket, key)` and reports
that key; deleting an object succeeds whether or not the key is present; a listing
shows the keys stored in the bucket.  An operation on a bucket that does not exist
fails with not-found.  The spec does not describe the objects after a copy nor the
presigned URL: those two operations are answered with an error and change
nothing. -/
def SDK.store : SDK Store where
  handle o st :=
    match o with
    | .LoadDefaultConfig optFns =>
      (({ Region := optFns.foldl (fun r f => match f with | .WithRegion v => v | _ => r) [],
          Credentials := optFns.foldl
            (fun r f => match f with | .WithCredentialsProvider v => some v | _ => r) none },
        none), st)
    | .CreateBucket _ params =>
      match params.Bucket with
      | none => ((none, some Store.invalid), st)
      | some b =>
        if b ∈ st.buckets then ((none, some Store.conflict), st)
        else ((some { Location := some b }, none), { st with buckets := b :: st.buckets })
    | .DeleteBucket _ params =>
      match params.Bucket with
      | none => ((none, some Store.invalid), st)
      | some b =>
        if b ∉ st.buckets then ((none, some Store.notFound), st)
        else if st.keys b ≠ [] then ((none, some Store.conflict), st)
        else ((some { RequestID := [] }, none),
              { st with buckets := st.buckets.filter (fun x => !decide (x = b)) })
    | .Upload _ input =>
      match input.Bucket, input.Key, input.Body with
      | some b, some k, some r =>
        if b ∈ st.buckets then
          ((some { Location := b ++ ascii "/" ++ k, Key := some k, ETag := none }, none),
           st.put b k r.data)
        else ((none, some Store.notFound), st)
      | _, _, _ => ((none, some Store.invalid), st)
    | .DeleteObject _ params =>
      match params.Bucket, params.Key with
      | some b, some k =>
        if b ∈ st.buckets then ((some { DeleteMarker := none }, none), st.remove b k)
        else ((none, some Store.notFound), st)
      | _, _ => ((none, some Store.invalid), st)
    | .CopyObject _ _ => ((none, some Store.undescribed), st)
    | .PresignGetObject _ _ => ((none, some Store.undescribed), st)
    | .ListBuckets _ _ => ((some { Buckets := st.buckets.map some }, none), st)
    | .ListObjects _ params =>
      match params.Bucket with
      | none => ((none, some Store.invalid), st)
      | some b =>
        if b ∈ st.buckets then ((some { Contents := st.keys b }, none), st)
        else ((none, some Store.notFound), st)

/-- The scenario of the spec's example on one client: upload an object, list the
bucket, delete the object, list the bucket again.  The four results come back in
that order. -/
def uploadListDeleteList (ctx : Client) (bucket key : GoString) (body : Option Reader)
    (contentType cacheControl : GoString) :
    Prog ((Option manager.UploadOutput × Option GoError) ×
          (Option s3.ListObjectsOutput × Option GoError) ×
          (Option s3.DeleteObjectOutput × Option GoError) ×
          (Option s3.ListObjectsOutput × Option GoError)) := do
  let uploaded ← ctx.UploadObject bucket key body contentType cacheControl
  let before ← ctx.ListObjects bucket
  let deleted ← ctx.DeleteObject bucket key
  let after ← ctx.ListObjects bucket
  return (uploaded, before, deleted, after)

/-- A store for examples: the bucket `test`, with one object of another name in it. -/
def exampleStore : Store :=
  { buckets := [ascii "test"],
    objects := [{ bucket := ascii "test", key := ascii "old.txt", data := ascii "x" }] }

/-! ## Lemmas on running function bodies -/

theorem Prog.run_ret {σ α : Type} (sdk : SDK σ) (a : α) (st : σ) (log : List Op) :
    (Prog.ret a).run sdk st log = { outcome := .returned a, state := st, calls := log } := rfl

theorem Prog.run_pure {σ α : Type} (sdk : SDK σ) (a : α) (st : σ) (log : List Op) :
    (pure a : Prog α).run sdk st log = { outcome := .returned a, state := st, calls := log } :=
  rfl

theorem Prog.run_invoke {σ : Type} (sdk : SDK σ) (o : Op) (st : σ) (log : List Op) :
    (Prog.invoke o).run sdk st log =
      { outcome := .returned (sdk.handle o st).1, state := (sdk.handle o st).2,
        calls := log ++ [o] } := rfl

theorem Prog.run_invoke_bind {σ β : Type} (sdk : SDK σ) (o : Op) (f : o.Resp → Prog β)
    (st : σ) (log : List Op) :
    ((Prog.invoke o).bind f).run sdk st log =
      (f (sdk.handle o st).1).run sdk (sdk.handle o st).2 (log ++ [o]) := rfl

theorem Forwards_invoke (o : Op) : Forwards o (Prog.invoke o) := by
  intro σ sdk st
  rfl

/-- Running `NewClient` on three non-empty arguments: the loader is asked once, and
its answer decides the result. -/
theorem NewClient_run {σ : Type} (sdk : SDK σ) (st : σ) (region key secret session : GoString)
    (hr : region ≠ []) (hk : key ≠ []) (hs : secret ≠ []) :
    (NewClient region key secret session).run sdk st [] =
      { outcome := .returned
          (match (sdk.handle (loadCall region key secret session) st).1.2 with
           | some e => (none, some e)
           | none =>
             (some { s3 := s3.NewFromConfig
                      (sdk.handle (loadCall region key secret session) st).1.1 }, none)),
        state := (sdk.handle (loadCall region key secret session) st).2,
        calls := [loadCall region key secret session] } := by
  unfold NewClient
  rw [if_neg hr, if_neg hk, if_neg hs]
  show ((Prog.invoke (loadCall region key secret session)).bind _).run sdk st [] = _
  rw [Prog.run_invoke_bind]
  rcases hres : (sdk.handle (loadCall region key secret session) st).1 with ⟨cfg, err⟩
  cases err with
  | none => rfl
  | some e => rfl

/-! ## Construction: `NewClient` -/

/-- C1: if region, key or secret is empty, `NewClient` returns a nil client and a
non-nil error without invoking any SDK operation (in particular not the
configuration loader), and the error is the same for every session token. -/
theorem NewClient_rejects_empty {σ : Type} (sdk : SDK σ) (st : σ) (region key secret : GoString)
    (h : region = [] ∨ key = [] ∨ secret = []) :
    ∃ e : GoError, ∀ session : GoString,
      (NewClient region key secret session).run sdk st [] =
        { outcome := .returned (none, some e), state := st, calls := [] } := by
  by_cases hr : region = []
  · exact ⟨errors.New (ascii "region cannot be empty"), fun session => by
      unfold NewClient; rw [if_pos hr]; rfl⟩
  · by_cases hk : key = []
    · exact ⟨errors.New (ascii "key cannot be empty"), fun session => by
        unfold NewClient; rw [if_neg hr, if_pos hk]; rfl⟩
    · have hs : secret = [] := by
        rcases h with h | h | h
        · exact absurd h hr
        · exact absurd h hk
        · exact h
      exact ⟨errors.New (ascii "secret cannot be empty"), fun session => by
        unfold NewClient; rw [if_neg hr, if_neg hk, if_pos hs]; rfl⟩

/-- C1 at an input: an empty secret, with region and key given, against the stub SDK. -/
theorem NewClient_rejects_empty_witness :
    (ascii "us-east-2" = [] ∨ ascii "AKIA" = [] ∨ ([] : GoString) = []) ∧
    ∃ e : GoError, ∀ session : GoString,
      (NewClient (ascii "us-east-2") (ascii "AKIA") [] session).run SDK.stub 0 [] =
        { outcome := .returned (none, some e), state := 0, calls := [] } :=
  ⟨Or.inr (Or.inr rfl),
   NewClient_rejects_empty SDK.stub 0 (ascii "us-east-2") (ascii "AKIA") []
     (Or.inr (Or.inr rfl))⟩

/-- C2, as stated, fails: with a non-empty region, key and secret, `NewClient`
still returns a nil client and an error when the configuration loader fails. -/
theorem NewClient_nonempty_can_fail :
    ascii "us-east-2" ≠ [] ∧ ascii "AKIA" ≠ [] ∧ ascii "secret" ≠ [] ∧
    (NewClient (ascii "us-east-2") (ascii "AKIA") (ascii "secret") []).run
        (SDK.failing (errors.New (ascii "failed to load shared config"))) () [] =
      { outcome := .returned
          (none, some (errors.New (ascii "failed to load shared config"))),
        state := (),
        calls := [loadCall (ascii "us-east-2") (ascii "AKIA") (ascii "secret") []] } := by
  refine ⟨by decide, by decide, by decide, ?_⟩
  rw [NewClient_run _ _ _ _ _ _ (by decide) (by decide) (by decide)]
  rfl

/-- C2, amended: for non-empty region, key and secret and any session token (the
empty one included), if the configuration loader reports no error then `NewClient`
returns a nil error and a client whose service handle is not nil. -/
theorem NewClient_succeeds_when_loader_does {σ : Type} (sdk : SDK σ) (st : σ)
    (region key secret session : GoString)
    (hr : region ≠ []) (hk : key ≠ []) (hs : secret ≠ [])
    (hload : (sdk.handle (loadCall region key secret session) st).1.2 = none) :
    ∃ (c : Client) (handle : s3.Client),
      ((NewClient region key secret session).run sdk st []).outcome = .returned (some c, none) ∧
      c.s3 = some handle := by
  rw [NewClient_run sdk st region key secret session hr hk hs, hload]
  exact ⟨_, _, rfl, rfl⟩

/-- C2 amended, at the input of the test with an empty session token. -/
theorem NewClient_succeeds_when_loader_does_witness :
    ∃ (c : Client) (handle : s3.Client),
      ((NewClient (ascii "us-east-2") (ascii "AKIA") (ascii "secret") []).run
        SDK.stub 0 []).outcome = .returned (some c, none) ∧
      c.s3 = some handle :=
  NewClient_succeeds_when_loader_does SDK.stub 0 (ascii "us-east-2") (ascii "AKIA")
    (ascii "secret") [] (by decide) (by decide) (by decide) rfl

/-- C3: for non-empty region, key and secret, if the configuration loader returns
an error `e` then `NewClient` returns a nil client and exactly `e`, having invoked
nothing but the loader; and if the loader returns no error, `NewClient` returns no
error and a client built from the loaded configuration. -/
theorem NewClient_propagates_loader_error {σ : Type} (sdk : SDK σ) (st : σ)
    (region key secret session : GoString)
    (hr : region ≠ []) (hk : key ≠ []) (hs : secret ≠ []) :
    (∀ e : GoError, (sdk.handle (loadCall region key secret session) st).1.2 = some e →
      (NewClient region key secret session).run sdk st [] =
        { outcome := .returned (none, some e),
          state := (sdk.handle (loadCall region key secret session) st).2,
          calls := [loadCall region key secret session] }) ∧
    ((sdk.handle (loadCall region key secret session) st).1.2 = none →
      (NewClient region key secret session).run sdk st [] =
        { outcome := .returned
            (some { s3 := s3.NewFromConfig
                      (sdk.handle (loadCall region key secret session) st).1.1 }, none),
          state := (sdk.handle (loadCall region key secret session) st).2,
          calls := [loadCall region key secret session] }) := by
  constructor
  · intro e he
    rw [NewClient_run sdk st region key secret session hr hk hs, he]
  · intro hnone
    rw [NewClient_run sdk st region key secret session hr hk hs, hnone]

/-- C3 at an input: the loader fails with an error, and that error comes back. -/
theorem NewClient_propagates_loader_error_witness :
    (NewClient (ascii "us-east-2") (ascii "AKIA") (ascii "secret") (ascii "token")).run
        (SDK.failing (errors.New (ascii "invalid configuration"))) () [] =
      { outcome := .returned (none, some (errors.New (ascii "invalid configuration"))),
        state := (),
        calls := [loadCall (ascii "us-east-2") (ascii "AKIA") (ascii "secret") (ascii "token")] } :=
  (NewClient_propagates_loader_error (SDK.failing (errors.New (ascii "invalid configuration"))) ()
    (ascii "us-east-2") (ascii "AKIA") (ascii "secret") (ascii "token")
    (by decide) (by decide) (by decide)).1 (errors.New (ascii "invalid configuration")) rfl

/-! ## The operations -/

/-- C4, as stated, fails: `UploadObject` with a nil `body`, on a client that wraps a
service handle, forwards to no invocation of the upload helper whatever the request:
the call panics and returns no pair. -/
theorem UploadObject_nil_body_not_forwarded :
    ¬ ∃ input : s3.PutObjectInput,
      Forwards (.Upload { S3 := exampleHandle } input)
        (Client.UploadObject { s3 := some exampleHandle } (ascii "test") (ascii "test.txt")
          none (ascii "text/plain") (ascii "public, max-age=14400")) := by
  rintro ⟨input, h⟩
  have hrun := congrArg Run.outcome (h Nat SDK.stub 0)
  cases hrun

/-- C4, amended: each of the eight operations, on a client that wraps a service
handle (and, for `UploadObject`, given a body that is not nil), invokes its SDK
operation exactly once, with a request fixed by the arguments, and returns exactly
the (response, error) pair that invocation produced, whatever the SDK and the
service do: nothing is retried, replaced, wrapped or dropped. -/
theorem operations_forward_once (c : s3.Client) :
    (∀ bucket, ∃ params,
      Forwards (.CreateBucket c params) (Client.CreateBucket { s3 := some c } bucket)) ∧
    (∀ bucket, ∃ params,
      Forwards (.DeleteBucket c params) (Client.DeleteBucket { s3 := some c } bucket)) ∧
    (∀ bucket key (body : Reader) contentType cacheControl, ∃ input,
      Forwards (.Upload { S3 := c } input)
        (Client.UploadObject { s3 := some c } bucket key (some body) contentType
          cacheControl)) ∧
    (∀ bucket key, ∃ params,
      Forwards (.DeleteObject c params) (Client.DeleteObject { s3 := some c } bucket key)) ∧
    (∀ sourceBucket key destinationBucket, ∃ params,
      Forwards (.CopyObject c params)
        (Client.CopyObject { s3 := some c } sourceBucket key destinationBucket)) ∧
    (∀ bucket key, ∃ params,
      Forwards (.PresignGetObject { client := c } params)
        (Client.GetObjectSign { s3 := some c } bucket key)) ∧
    (∃ params, Forwards (.ListBuckets c params) (Client.ListBuckets { s3 := some c })) ∧
    (∀ bucket, ∃ params,
      Forwards (.ListObjects c params) (Client.ListObjects { s3 := some c } bucket)) :=
  ⟨fun _ => ⟨_, Forwards_invoke _⟩, fun _ => ⟨_, Forwards_invoke _⟩,
   fun _ _ _ _ _ => ⟨_, Forwards_invoke _⟩, fun _ _ => ⟨_, Forwards_invoke _⟩,
   fun _ _ _ => ⟨_, Forwards_invoke _⟩, fun _ _ => ⟨_, Forwards_invoke _⟩,
   ⟨_, Forwards_invoke _⟩, fun _ => ⟨_, Forwards_invoke _⟩⟩

/-- C5: `CopyObject(sourceBucket, key, destinationBucket)` forwards one copy request
whose `Bucket` (the destination, for the service) is the path-escaped
`sourceBucket`, whose `CopySource` (the source object, for the service) is the raw
`destinationBucket` with no key appended, and whose `Key` is `key`. -/
theorem CopyObject_request_swapped {σ : Type} (sdk : SDK σ) (st : σ) (c : s3.Client)
    (sourceBucket key destinationBucket : GoString) :
    ∃ params : s3.CopyObjectInput,
      (Client.CopyObject { s3 := some c } sourceBucket key destinationBucket).calls sdk st =
        [Op.CopyObject c params] ∧
      params.Bucket = some (url.PathEscape sourceBucket) ∧
      params.CopySource = some destinationBucket ∧
      params.Key = some key ∧
      params.others = [] :=
  ⟨_, rfl, rfl, rfl, rfl, rfl⟩

/-- C6 at the failing input: `CopyObject` with the source bucket `a b` forwards the
`Bucket` field `a%20b`, which is not the string the caller passed. -/
theorem CopyObject_rewrites_source_bucket :
    (Client.CopyObject { s3 := some exampleHandle } (ascii "a b") (ascii "k")
        (ascii "dst")).calls SDK.stub 0 =
      [Op.CopyObject exampleHandle
        { Bucket := some (ascii "a%20b"), CopySource := some (ascii "dst"),
          Key := some (ascii "k") }] ∧
    (some (ascii "a%20b") : Option GoString) ≠ some (ascii "a b") := by
  constructor
  · decide
  · decide

/-- The requests of the operations other than `CopyObject`: each is forwarded
whatever the strings are, and its bucket and key fields are the strings the caller
passed. -/
theorem requests_carry_names {σ : Type} (sdk : SDK σ) (st : σ) (c : s3.Client) :
    (∀ bucket, (Client.CreateBucket { s3 := some c } bucket).calls sdk st =
      [Op.CreateBucket c { Bucket := some bucket }]) ∧
    (∀ bucket, (Client.DeleteBucket { s3 := some c } bucket).calls sdk st =
      [Op.DeleteBucket c { Bucket := some bucket }]) ∧
    (∀ bucket key (body : Reader) contentType cacheControl, ∃ input : s3.PutObjectInput,
      (Client.UploadObject { s3 := some c } bucket key (some body) contentType
        cacheControl).calls sdk st = [Op.Upload { S3 := c } input] ∧
      input.Bucket = some bucket ∧ input.Key = some key) ∧
    (∀ bucket key, (Client.DeleteObject { s3 := some c } bucket key).calls sdk st =
      [Op.DeleteObject c { Bucket := some bucket, Key := some key }]) ∧
    (∀ bucket key, (Client.GetObjectSign { s3 := some c } bucket key).calls sdk st =
      [Op.PresignGetObject { client := c } { Bucket := some bucket, Key := some key }]) ∧
    (∀ bucket, (Client.ListObjects { s3 := some c } bucket).calls sdk st =
      [Op.ListObjects c { Bucket := some bucket }]) :=
  ⟨fun _ => rfl, fun _ => rfl, fun _ _ _ _ _ => ⟨_, rfl, rfl, rfl⟩, fun _ _ => rfl,
   fun _ _ => rfl, fun _ => rfl⟩

/-- C9, as stated, fails: at the input of the test with a nil `body`, `UploadObject`
panics inside the upload helper; no request reaches the SDK and nothing is
returned. -/
theorem UploadObject_nil_body_panics :
    (Client.UploadObject { s3 := some exampleHandle } (ascii "test") (ascii "test.txt")
        none (ascii "text/plain") (ascii "public, max-age=14400")).run SDK.stub 0 [] =
      { outcome := .panicked, state := 0, calls := [] } :=
  rfl

/-- C9, amended: for a body that is not nil, `UploadObject` hands the upload helper
exactly one put request, whose `Bucket`, `Key`, `Body`, `ContentType` and
`CacheControl` are the five arguments in that order and whose other fields are
unset, and returns the helper's result; hence, if the helper's result reports the
request's key, the returned key is the `key` argument. -/
theorem UploadObject_request_and_key {σ : Type} (sdk : SDK σ) (st : σ) (c : s3.Client)
    (bucket key : GoString) (body : Reader) (contentType cacheControl : GoString) :
    ∃ input : s3.PutObjectInput,
      input = { Bucket := some bucket, Key := some key, Body := some body,
                ContentType := some contentType, CacheControl := some cacheControl,
                others := [] } ∧
      (Client.UploadObject { s3 := some c } bucket key (some body) contentType
          cacheControl).run sdk st [] =
        { outcome := .returned (sdk.handle (.Upload { S3 := c } input) st).1,
          state := (sdk.handle (.Upload { S3 := c } input) st).2,
          calls := [Op.Upload { S3 := c } input] } ∧
      ∀ out : manager.UploadOutput,
        (sdk.handle (.Upload { S3 := c } input) st).1.1 = some out →
        out.Key = input.Key →
        ∃ e, ((Client.UploadObject { s3 := some c } bucket key (some body) contentType
                cacheControl).run sdk st []).outcome = .returned (some out, e) ∧
             out.Key = some key := by
  refine ⟨_, rfl, rfl, ?_⟩
  intro out hout hkey
  exact ⟨(sdk.handle (Op.Upload { S3 := c }
      { Bucket := some bucket, Key := some key, Body := some body,
        ContentType := some contentType, CacheControl := some cacheControl,
        others := [] }) st).1.2,
    congrArg Outcome.returned (Prod.ext hout rfl), hkey⟩

/-- C9 amended, at the input of the test: the upload of `test.txt` to bucket `test`, against
the stub SDK, returns the key `test.txt`. -/
theorem UploadObject_request_and_key_witness :
    ∃ (out : manager.UploadOutput) (e : Option GoError),
      ((Client.UploadObject { s3 := some exampleHandle } (ascii "test") (ascii "test.txt")
          (some { data := ascii "test" }) (ascii "text/plain")
          (ascii "public, max-age=14400")).run SDK.stub 0 []).outcome =
        .returned (some out, e) ∧
      out.Key = some (ascii "test.txt") := by
  obtain ⟨input, hin, _, hkey⟩ :=
    UploadObject_request_and_key SDK.stub 0 exampleHandle (ascii "test") (ascii "test.txt")
      { data := ascii "test" } (ascii "text/plain") (ascii "public, max-age=14400")
  subst hin
  obtain ⟨e, h1, h2⟩ := hkey { Location := [], Key := some (ascii "test.txt"), ETag := none }
    rfl rfl
  exact ⟨_, e, h1, h2⟩

/-! ## `url.PathEscape` on bucket names -/

set_option maxRecDepth 20000

theorem url.shouldEscape_of_isBucketChar :
    ∀ c : Byte, isBucketChar c = true → url.shouldEscape c .encodePathSegment = false := by
  decide

theorem url.spaceCount_eq_zero_of_isBucketChar (s : GoString)
    (h : ∀ c ∈ s, isBucketChar c = true) : url.spaceCount s .encodePathSegment = 0 := by
  unfold url.spaceCount
  rw [List.countP_eq_zero]
  intro c hc
  simp [url.shouldEscape_of_isBucketChar c (h c hc)]

theorem url.hexCount_eq_zero_of_isBucketChar (s : GoString)
    (h : ∀ c ∈ s, isBucketChar c = true) : url.hexCount s .encodePathSegment = 0 := by
  unfold url.hexCount
  rw [List.countP_eq_zero]
  intro c hc
  simp [url.shouldEscape_of_isBucketChar c (h c hc)]

theorem url.PathEscape_of_isBucketChar (s : GoString) (h : ∀ c ∈ s, isBucketChar c = true) :
    url.PathEscape s = s := by
  unfold url.PathEscape url.escape
  rw [if_pos ⟨url.spaceCount_eq_zero_of_isBucketChar s h,
    url.hexCount_eq_zero_of_isBucketChar s h⟩]

/-- C10: if `sourceBucket` consists only of ASCII letters, digits, `-`, `.` and `_`,
then `url.PathEscape` leaves it as it is and the `Bucket` field that `CopyObject`
forwards is `sourceBucket` itself; and for the source buckets `a b` and `a/b`
(a space, a slash) the forwarded `Bucket` field differs from the argument. -/
theorem CopyObject_bucket_unescaped_on_safe_names {σ : Type} (sdk : SDK σ) (st : σ)
    (c : s3.Client) (sourceBucket key destinationBucket : GoString)
    (hsafe : ∀ b ∈ sourceBucket, isBucketChar b = true) :
    (url.PathEscape sourceBucket = sourceBucket ∧
      (Client.CopyObject { s3 := some c } sourceBucket key destinationBucket).calls sdk st =
        [Op.CopyObject c
          { Bucket := some sourceBucket, CopySource := some destinationBucket,
            Key := some key }]) ∧
    (∃ forwarded : GoString,
      (Client.CopyObject { s3 := some c } (ascii "a b") key destinationBucket).calls sdk st =
        [Op.CopyObject c
          { Bucket := some forwarded, CopySource := some destinationBucket,
            Key := some key }] ∧
      forwarded ≠ ascii "a b") ∧
    (∃ forwarded : GoString,
      (Client.CopyObject { s3 := some c } (ascii "a/b") key destinationBucket).calls sdk st =
        [Op.CopyObject c
          { Bucket := some forwarded, CopySource := some destinationBucket,
            Key := some key }] ∧
      forwarded ≠ ascii "a/b") := by
  refine ⟨⟨url.PathEscape_of_isBucketChar sourceBucket hsafe, ?_⟩, ?_, ?_⟩
  · show [Op.CopyObject c
        { Bucket := some (url.PathEscape sourceBucket), CopySource := some destinationBucket,
          Key := some key }] = _
    rw [url.PathEscape_of_isBucketChar sourceBucket hsafe]
  · exact ⟨url.PathEscape (ascii "a b"), rfl, by decide⟩
  · exact ⟨url.PathEscape (ascii "a/b"), rfl, by decide⟩

/-- C10 at an input: the bucket name `my-bucket.v1_x` is forwarded as it is. -/
theorem CopyObject_bucket_unescaped_on_safe_names_witness :
    (∀ b ∈ ascii "my-bucket.v1_x", isBucketChar b = true) ∧
    url.PathEscape (ascii "my-bucket.v1_x") = ascii "my-bucket.v1_x" ∧
    (Client.CopyObject { s3 := some exampleHandle } (ascii "my-bucket.v1_x") (ascii "test.txt")
        (ascii "backup")).calls SDK.stub 0 =
      [Op.CopyObject exampleHandle
        { Bucket := some (ascii "my-bucket.v1_x"), CopySource := some (ascii "backup"),
          Key := some (ascii "test.txt") }] :=
  ⟨by decide,
   (CopyObject_bucket_unescaped_on_safe_names SDK.stub 0 exampleHandle (ascii "my-bucket.v1_x")
      (ascii "test.txt") (ascii "backup") (by decide)).1⟩

/-! ## Upload, list, delete, list against the store of the specification -/

theorem Store.mem_keys_put (st : Store) (bucket key data : GoString) :
    some key ∈ (st.put bucket key data).keys bucket := by
  simp [Store.put, Store.keys]

theorem Store.not_mem_keys_remove (st : Store) (bucket key : GoString) :
    some key ∉ (st.remove bucket key).keys bucket := by
  simp only [Store.remove, Store.keys, List.mem_map, List.mem_filter, Option.some.injEq,
    decide_eq_true_eq, Bool.not_eq_true', decide_eq_false_iff_not, not_exists, not_and]
  intro o ho hkey
  exact ho.1.2 ho.2 hkey

theorem uploadListDeleteList_run {σ : Type} (sdk : SDK σ) (st : σ) (c : s3.Client)
    (bucket key : GoString) (body : Reader) (contentType cacheControl : GoString) :
    ((uploadListDeleteList { s3 := some c } bucket key (some body) contentType
        cacheControl).run sdk st []).outcome =
      .returned
        ((sdk.handle (.Upload { S3 := c }
            { Bucket := some bucket, Key := some key, Body := some body,
              ContentType := some contentType, CacheControl := some cacheControl }) st).1,
         (sdk.handle (.ListObjects c { Bucket := some bucket })
            (sdk.handle (.Upload { S3 := c }
              { Bucket := some bucket, Key := some key, Body := some body,
                ContentType := some contentType, CacheControl := some cacheControl }) st).2).1,
         (sdk.handle (.DeleteObject c { Bucket := some bucket, Key := some key })
            (sdk.handle (.ListObjects c { Bucket := some bucket })
              (sdk.handle (.Upload { S3 := c }
                { Bucket := some bucket, Key := some key, Body := some body,
                  ContentType := some contentType, CacheControl := some cacheControl })
                st).2).2).1,
         (sdk.handle (.ListObjects c { Bucket := some bucket })
            (sdk.handle (.DeleteObject c { Bucket := some bucket, Key := some key })
              (sdk.handle (.ListObjects c { Bucket := some bucket })
                (sdk.handle (.Upload { S3 := c }
                  { Bucket := some bucket, Key := some key, Body := some body,
                    ContentType := some contentType, CacheControl := some cacheControl })
                  st).2).2).2).1) :=
  rfl

theorem SDK.store_upload (st : Store) (u : manager.Uploader) (bucket key : GoString)
    (body : Reader) (contentType cacheControl : GoString) :
    SDK.store.handle (.Upload u
        { Bucket := some bucket, Key := some key, Body := some body,
          ContentType := some contentType, CacheControl := some cacheControl }) st =
      if bucket ∈ st.buckets then
        ((some { Location := bucket ++ ascii "/" ++ key, Key := some key, ETag := none },
          none), st.put bucket key body.data)
      else ((none, some Store.notFound), st) :=
  rfl

theorem SDK.store_listObjects (st : Store) (c : s3.Client) (bucket : GoString) :
    SDK.store.handle (.ListObjects c { Bucket := some bucket }) st =
      if bucket ∈ st.buckets then ((some { Contents := st.keys bucket }, none), st)
      else ((none, some Store.notFound), st) :=
  rfl

theorem SDK.store_deleteObject (st : Store) (c : s3.Client) (bucket key : GoString) :
    SDK.store.handle (.DeleteObject c { Bucket := some bucket, Key := some key }) st =
      if bucket ∈ st.buckets then
        ((some { DeleteMarker := none }, none), st.remove bucket key)
      else ((none, some Store.notFound), st) :=
  rfl

/-- C8: against the store the specification describes, from any state of it: the
scenario upload, list, delete, list on `(bucket, key)` returns its four results,
and if the upload succeeded and the delete succeeds then the listing taken between
them succeeds and has an entry with that key, and the listing taken after the
delete succeeds and has no entry with that key. -/
theorem deleted_object_no_longer_listed (st : Store) (c : s3.Client) (bucket key : GoString)
    (body : Reader) (contentType cacheControl : GoString) :
    ∃ uploaded before deleted after,
      ((uploadListDeleteList { s3 := some c } bucket key (some body) contentType
          cacheControl).run SDK.store st []).outcome =
        .returned (uploaded, before, deleted, after) ∧
      (uploaded.2 = none → deleted.2 = none →
        (∃ listing : s3.ListObjectsOutput,
          before = (some listing, none) ∧ some key ∈ listing.Contents) ∧
        (∃ listing : s3.ListObjectsOutput,
          after = (some listing, none) ∧ some key ∉ listing.Contents)) := by
  refine ⟨_, _, _, _, uploadListDeleteList_run SDK.store st c bucket key body contentType
    cacheControl, ?_⟩
  by_cases hb : bucket ∈ st.buckets
  · have hput : bucket ∈ (st.put bucket key body.data).buckets := hb
    have hrem : bucket ∈ ((st.put bucket key body.data).remove bucket key).buckets := hb
    intro _ _
    simp only [SDK.store_upload, SDK.store_listObjects, SDK.store_deleteObject, if_pos hb,
      if_pos hput, if_pos hrem]
    exact ⟨⟨_, rfl, Store.mem_keys_put st bucket key body.data⟩,
      ⟨_, rfl, Store.not_mem_keys_remove _ bucket key⟩⟩
  · intro hup
    rw [SDK.store_upload, if_neg hb] at hup
    cases hup

/-- C8 at the input of the test, from a store that holds the bucket `test`: the
upload and the delete succeed, the listing between them shows `test.txt`, the
listing after the delete does not. -/
theorem deleted_object_no_longer_listed_witness :
    ∃ uploaded before deleted after,
      ((uploadListDeleteList { s3 := some exampleHandle } (ascii "test") (ascii "test.txt")
          (some { data := ascii "test" }) (ascii "text/plain")
          (ascii "public, max-age=14400")).run SDK.store exampleStore []).outcome =
        .returned (uploaded, before, deleted, after) ∧
      uploaded.2 = none ∧ deleted.2 = none ∧
      (∃ listing : s3.ListObjectsOutput,
        before = (some listing, none) ∧ some (ascii "test.txt") ∈ listing.Contents) ∧
      (∃ listing : s3.ListObjectsOutput,
        after = (some listing, none) ∧ some (ascii "test.txt") ∉ listing.Contents) := by
  obtain ⟨uploaded, before, deleted, after, hrun, himp⟩ :=
    deleted_object_no_longer_listed exampleStore exampleHandle (ascii "test")
      (ascii "test.txt") { data := ascii "test" } (ascii "text/plain")
      (ascii "public, max-age=14400")
  have hcalc := uploadListDeleteList_run SDK.store exampleStore exampleHandle (ascii "test")
    (ascii "test.txt") { data := ascii "test" } (ascii "text/plain")
    (ascii "public, max-age=14400")
  rw [hcalc] at hrun
  have hpair := Outcome.returned.inj hrun
  have hup : uploaded.2 = none := by
    rw [← (Prod.mk.inj hpair).1]; decide
  have hdel : deleted.2 = none := by
    rw [← (Prod.mk.inj (Prod.mk.inj (Prod.mk.inj hpair).2).2).1]; decide
  exact ⟨uploaded, before, deleted, after, by rw [hcalc, hpair], hup, hdel, himp hup hdel⟩
